import Mathlib

/-!
Shallow embedding of the AndyWeb (BowersWorld.com) authentication layer:
`Source/Core/DatabaseManager.py` (users, sessions, login lockout),
`Source/Core/RateLimiter.py` (token-bucket rate limiting) and the
configuration constants of `Source/Core/AuthConfig.py`.

SQLite tables become Lean lists of structures; `DATETIME` values are
modelled as integers (comparison of ISO timestamps is order-isomorphic to
integer time), and the rate limiter's wall-clock seconds as rationals.
Randomly generated tokens are passed in as explicit arguments.
-/

namespace AndyWeb

/-- `AuthConfig.MAX_LOGIN_ATTEMPTS` from `Source/Core/AuthConfig.py`. -/
def MAX_LOGIN_ATTEMPTS : Nat := 5

/-- `AuthConfig.LOCKOUT_DURATION = timedelta(hours=1)`, in seconds. -/
def LOCKOUT_DURATION : Int := 3600

/-- A row of the `Users` table (the columns the authentication layer reads).
`passwordHash` models `PasswordHash`: `PwdContext.verify(p, h)` is modelled
as equality of the presented password with the stored value. -/
structure User where
  id : Nat
  email : String
  username : Option String
  passwordHash : String
  isActive : Bool
  loginAttempts : Nat
  accountLockedUntil : Option Int
  deriving Repr, DecidableEq

/-- A row of the `UserSessions` table (the columns the session layer touches). -/
structure Session where
  userId : Nat
  sessionToken : String
  refreshToken : String
  expiresAt : Int
  isActive : Bool
  lastAccessAt : Int
  deriving Repr, DecidableEq

/-- The database state the claims range over. -/
structure Database where
  users : List User
  sessions : List Session
  deriving Repr, DecidableEq

/-- The `WHERE` clause of `DatabaseManager.ValidateSession`:
`SessionToken = ? AND IsActive = TRUE AND ExpiresAt > CURRENT_TIMESTAMP`. -/
def sessionMatches (now : Int) (t : String) (s : Session) : Bool :=
  s.sessionToken == t && s.isActive && now < s.expiresAt

/-- The row update of `UPDATE UserSessions SET LastAccessAt = ? WHERE SessionToken = ?`. -/
def touchRow (now : Int) (t : String) (s : Session) : Session :=
  if s.sessionToken == t then { s with lastAccessAt := now } else s

/-- The row update of `UPDATE UserSessions SET IsActive = FALSE WHERE SessionToken = ?`. -/
def deactivateRow (t : String) (s : Session) : Session :=
  if s.sessionToken == t then { s with isActive := false } else s

/-- The result rows of the `ValidateSession` query: sessions passing the
`WHERE` clause, joined (`JOIN Users u ON s.UserId = u.Id`) with their user. -/
def validRows (now : Int) (db : Database) (t : String) : List (Session × User) :=
  (db.sessions.filter (sessionMatches now t)).flatMap
    (fun s => (db.users.filter (fun u => u.id == s.userId)).map (fun u => (s, u)))

/-- `DatabaseManager.ValidateSession`: the `SELECT ... FROM UserSessions s
JOIN Users u ON s.UserId = u.Id WHERE ...` query, followed (on success) by
`UPDATE UserSessions SET LastAccessAt = CURRENT_TIMESTAMP WHERE SessionToken = ?`.
Returns the first joined row and the updated database. -/
def ValidateSession (now : Int) (db : Database) (t : String) :
    Option (Session × User) × Database :=
  match (validRows now db t).head? with
  | none => (none, db)
  | some r => (some r, { db with sessions := db.sessions.map (touchRow now t) })

/-- `DatabaseManager.LogoutUser`:
`UPDATE UserSessions SET IsActive = FALSE WHERE SessionToken = ?`; returns `True`. -/
def LogoutUser (db : Database) (t : String) : Bool × Database :=
  (true, { db with sessions := db.sessions.map (deactivateRow t) })

/-- The `WHERE` clause of `DatabaseManager.CleanupExpiredSessions`:
`ExpiresAt < CURRENT_TIMESTAMP OR IsActive = FALSE`. -/
def sessionCondemned (now : Int) (s : Session) : Bool :=
  s.expiresAt < now || !s.isActive

/-- `DatabaseManager.CleanupExpiredSessions`:
`DELETE FROM UserSessions WHERE ExpiresAt < CURRENT_TIMESTAMP OR IsActive = FALSE`;
returns the updated database and `Cursor.rowcount`, the number of deleted rows. -/
def CleanupExpiredSessions (now : Int) (db : Database) : Database × Nat :=
  let part := db.sessions.partition (sessionCondemned now)
  ({ db with sessions := part.2 }, part.1.length)

/-- `DatabaseManager.GetUserByEmail`:
`SELECT * FROM Users WHERE Email = ? AND IsActive = TRUE`. -/
def GetUserByEmail (db : Database) (email : String) : Option User :=
  db.users.find? (fun u => u.email == email && u.isActive)

/-- The lock check of `DatabaseManager.AuthenticateUser`:
`User['AccountLockedUntil'] and datetime.fromisoformat(...) > datetime.now()`. -/
def lockActive (now : Int) (u : User) : Bool :=
  match u.accountLockedUntil with
  | none => false
  | some until0 => now < until0

/-- The row update performed by `DatabaseManager.IncrementLoginAttempts` for the
user with the given id: bump `LoginAttempts`, and if the new count reaches
`AuthConfig.MAX_LOGIN_ATTEMPTS`, set `AccountLockedUntil = now + LOCKOUT_DURATION`. -/
def bumpAttempts (now : Int) (userId : Nat) (u : User) : User :=
  if u.id == userId then
    let a := u.loginAttempts + 1
    if MAX_LOGIN_ATTEMPTS ≤ a then
      { u with loginAttempts := a, accountLockedUntil := some (now + LOCKOUT_DURATION) }
    else
      { u with loginAttempts := a }
  else u

/-- `DatabaseManager.IncrementLoginAttempts`. -/
def IncrementLoginAttempts (now : Int) (db : Database) (userId : Nat) : Database :=
  { db with users := db.users.map (bumpAttempts now userId) }

/-- The row update of `DatabaseManager.ResetLoginAttempts`:
`UPDATE Users SET LoginAttempts = 0, AccountLockedUntil = NULL WHERE Id = ?`. -/
def clearAttempts (userId : Nat) (u : User) : User :=
  if u.id == userId then { u with loginAttempts := 0, accountLockedUntil := none } else u

/-- `DatabaseManager.ResetLoginAttempts`. -/
def ResetLoginAttempts (db : Database) (userId : Nat) : Database :=
  { db with users := db.users.map (clearAttempts userId) }

/-- Outcome of `DatabaseManager.AuthenticateUser`: the user dict on success,
`{'error': 'account_locked'}` on a locked account, `None` otherwise. -/
inductive AuthResult where
  | success (u : User)
  | accountLocked
  | failure
  deriving Repr, DecidableEq

/-- `DatabaseManager.AuthenticateUser`: fetch by email, reject if the account
is locked until after `now`, verify the password; on success reset the attempt
counter, on a wrong password increment it (locking at the threshold). -/
def AuthenticateUser (now : Int) (db : Database) (email password : String) :
    AuthResult × Database :=
  match GetUserByEmail db email with
  | none => (.failure, db)
  | some u =>
    if lockActive now u then (.accountLocked, db)
    else if password == u.passwordHash then (.success u, ResetLoginAttempts db u.id)
    else (.failure, IncrementLoginAttempts now db u.id)

/-- Outcome of `DatabaseManager.CreateUser`. -/
inductive CreateResult where
  | ok (u : User)
  | emailExists
  | usernameExists
  deriving Repr, DecidableEq

/-- Python `Email.split('@')[0]`: the prefix of the email before the first
`'@'` (the whole string when there is none). -/
def emailLocalPart (s : String) : String :=
  ⟨s.data.takeWhile (fun c => c ≠ '@')⟩

/-- `DatabaseManager.CreateUser`: default the username to the email prefix
(`Email.split('@')[0]`), then `INSERT INTO Users ...`; a violated
`UNIQUE` constraint on `Users.Email` (declared first) yields
`{'error': 'email_exists'}`, one on `Users.Username` yields
`{'error': 'username_exists'}`. -/
def CreateUser (db : Database) (email : String) (username : Option String)
    (password : String) : CreateResult × Database :=
  let uname := username.getD (emailLocalPart email)
  if db.users.any (fun u => u.email == email) then (.emailExists, db)
  else if db.users.any (fun u => u.username == some uname) then (.usernameExists, db)
  else
    let newUser : User :=
      { id := db.users.length + 1, email := email, username := some uname,
        passwordHash := password, isActive := true, loginAttempts := 0,
        accountLockedUntil := none }
    (.ok newUser, { db with users := db.users ++ [newUser] })

/-- Python `str.lower()`: lower-case every character. -/
def pyLower (s : String) : String :=
  ⟨s.data.map Char.toLower⟩

/-- Python `str.strip()`: drop whitespace from both ends. -/
def pyStrip (s : String) : String :=
  ⟨((s.data.dropWhile Char.isWhitespace).reverse.dropWhile Char.isWhitespace).reverse⟩

/-- `UserRegistrationRequest.ValidateEmail` in `Source/API/MainAPI.py`:
`return Value.lower().strip()`. -/
def normalizeEmail (s : String) : String :=
  pyStrip (pyLower s)

/-- The registration pipeline: the API model normalizes the email before
`DatabaseManager.CreateUser` sees it. -/
def RegisterUser (db : Database) (email : String) (username : Option String)
    (password : String) : CreateResult × Database :=
  CreateUser db (normalizeEmail email) username password

/-- `DatabaseManager.CreateUserSession`: insert a new session row with the
freshly generated tokens (passed here as arguments) and expiry
`now + SESSION_EXPIRY`. A violated `UNIQUE` constraint on `SessionToken` or
`RefreshToken` raises `sqlite3.IntegrityError`, which the generic
`except` swallows: the method returns `None` and the store is unchanged. -/
def CreateUserSession (now : Int) (db : Database) (userId : Nat)
    (sessionToken refreshToken : String) : Option Session × Database :=
  if db.sessions.any
      (fun s => s.sessionToken == sessionToken || s.refreshToken == refreshToken) then
    (none, db)
  else
    let s : Session :=
      { userId := userId, sessionToken := sessionToken, refreshToken := refreshToken,
        expiresAt := now + 86400, isActive := true, lastAccessAt := now }
    (some s, { db with sessions := db.sessions ++ [s] })

/-! ## Rate limiter (`Source/Core/RateLimiter.py`)

Wall-clock time (`time.time()` seconds) is modelled as a rational number,
the bucket's token count as an integer (Python `int`). -/

/-- One entry of `AuthConfig.RATE_LIMITS`. -/
structure RateConfig where
  requests_per_minute : Nat
  burst_limit : Int
  deriving Repr, DecidableEq

/-- `AuthConfig.RATE_LIMITS['api_general']` (the `requests_per_hour` field is
never read by the limiter). -/
def RATE_LIMITS_api_general : RateConfig :=
  { requests_per_minute := 60, burst_limit := 100 }

/-- A token bucket: the `{'tokens': ..., 'last_refill': ...}` dict. -/
structure Bucket where
  tokens : Int
  last_refill : ℚ
  deriving DecidableEq

/-- Python `int(x)`: truncation toward zero. -/
def pyInt (q : ℚ) : Int :=
  if 0 ≤ q then ⌊q⌋ else ⌈q⌉

/-- The fresh bucket set up by `is_allowed` when the key is new:
`tokens = burst_limit`, `last_refill = time.time()`. -/
def initBucket (now : ℚ) (cfg : RateConfig) : Bucket :=
  { tokens := cfg.burst_limit, last_refill := now }

/-- `RateLimiter._refill_bucket`: add
`int(time_elapsed * requests_per_minute / 60.0)` tokens, capped at
`burst_limit`; `tokens` and `last_refill` change only when that amount
is positive. -/
def refill_bucket (now : ℚ) (cfg : RateConfig) (b : Bucket) : Bucket :=
  let time_elapsed := now - b.last_refill
  let tokens_to_add := pyInt (time_elapsed * cfg.requests_per_minute / 60)
  if 0 < tokens_to_add then
    { tokens := min cfg.burst_limit (b.tokens + tokens_to_add), last_refill := now }
  else b

/-- The rate-limit info dict returned by `RateLimiter.is_allowed`. -/
structure RateInfo where
  remaining : Int
  reset_time : ℚ
  limit : Nat
  retry_after : Option Int
  deriving DecidableEq

/-- `RateLimiter.is_allowed` on one bucket with its endpoint's configuration:
refill, then consume `request_count` tokens if available, otherwise reject
with `retry_after = max(1, int(60 - (time.time() - last_refill)))`. -/
def is_allowed (now : ℚ) (cfg : RateConfig) (b : Bucket) (request_count : Int) :
    Bool × Bucket × RateInfo :=
  let b1 := refill_bucket now cfg b
  if request_count ≤ b1.tokens then
    (true, { b1 with tokens := b1.tokens - request_count },
     { remaining := b1.tokens - request_count,
       reset_time := b1.last_refill + 60,
       limit := cfg.requests_per_minute,
       retry_after := none })
  else
    (false, b1,
     { remaining := 0,
       reset_time := b1.last_refill + 60,
       limit := cfg.requests_per_minute,
       retry_after := some (max 1 (pyInt (60 - (now - b1.last_refill)))) })

/-! ## Theorems -/

/-- The keep-predicate of `CleanupExpiredSessions` is the pointwise complement
of the delete-predicate `ExpiresAt < now OR IsActive = FALSE`. -/
theorem not_condemned_eq (now : Int) (s : Session) :
    (!sessionCondemned now s) = (decide (now ≤ s.expiresAt) && s.isActive) := by
  unfold sessionCondemned
  by_cases hlt : s.expiresAt < now
  · have hle : ¬ now ≤ s.expiresAt := by omega
    simp [hlt, hle]
  · have hle : now ≤ s.expiresAt := by omega
    simp [hlt, hle]

/-- C5: `CleanupExpiredSessions` keeps the users table intact, keeps exactly the
session rows with `now ≤ ExpiresAt` and `IsActive = TRUE` (each row unchanged,
in order), and returns the number of rows with `ExpiresAt < now` or
`IsActive = FALSE` that it deleted; kept plus deleted accounts for every row. -/
theorem cleanup_removes_exactly_expired (now : Int) (db : Database) :
    (CleanupExpiredSessions now db).1.users = db.users ∧
    (CleanupExpiredSessions now db).1.sessions
      = db.sessions.filter (fun s => decide (now ≤ s.expiresAt) && s.isActive) ∧
    (CleanupExpiredSessions now db).2
      = (db.sessions.filter (fun s => decide (s.expiresAt < now) || !s.isActive)).length ∧
    (CleanupExpiredSessions now db).2
        + (CleanupExpiredSessions now db).1.sessions.length = db.sessions.length := by
  unfold CleanupExpiredSessions
  rw [List.partition_eq_filter_filter]
  refine ⟨rfl, ?_, ?_, ?_⟩
  · exact List.filter_congr (fun s _ => not_condemned_eq now s)
  · exact congrArg List.length (List.filter_congr (fun s _ => by
      simp [sessionCondemned]))
  · dsimp only
    have h := List.length_eq_length_filter_add (l := db.sessions) (sessionCondemned now)
    have hc : List.filter (not ∘ sessionCondemned now) db.sessions
        = List.filter (fun x => !sessionCondemned now x) db.sessions := rfl
    rw [hc]
    omega

/-- Deactivating the sessions bearing a token twice is the same as doing it once. -/
theorem deactivateRow_idem (t : String) (s : Session) :
    deactivateRow t (deactivateRow t s) = deactivateRow t s := by
  unfold deactivateRow
  split <;> simp_all

/-- After `LogoutUser db t`, no session passes the `ValidateSession` filter
for token `t`. -/
theorem validRows_after_logout (now : Int) (db : Database) (t : String) :
    validRows now (LogoutUser db t).2 t = [] := by
  unfold validRows LogoutUser
  have hnil : ((db.sessions.map (deactivateRow t)).filter (sessionMatches now t)) = [] := by
    rw [List.filter_eq_nil_iff]
    intro a ha
    obtain ⟨s, _, rfl⟩ := List.mem_map.mp ha
    unfold deactivateRow sessionMatches
    split
    · simp
    · rename_i h
      simp [h]
  simp [hnil]

/-- C6: `LogoutUser` returns `True`; a second `LogoutUser` with the same token
also returns `True` and leaves the database exactly as after the first; and
after the first logout, `ValidateSession` fails for that token at every time. -/
theorem logout_idempotent_and_invalidates (db : Database) (t : String) (now : Int) :
    (LogoutUser db t).1 = true ∧
    LogoutUser (LogoutUser db t).2 t = (true, (LogoutUser db t).2) ∧
    (ValidateSession now (LogoutUser db t).2 t).1 = none := by
  refine ⟨rfl, ?_, ?_⟩
  · unfold LogoutUser
    simp only [List.map_map]
    exact congrArg _ (congrArg _ (List.map_congr_left
      (fun s _ => deactivateRow_idem t s)))
  · unfold ValidateSession
    rw [validRows_after_logout]
    rfl

/-- C10: when the post-refill token balance is below the requested cost,
`is_allowed` rejects the request and the stored bucket is exactly the
post-refill bucket: same token count, same `last_refill`; nothing is debited. -/
theorem rejected_request_leaves_bucket (now : ℚ) (cfg : RateConfig) (b : Bucket)
    (cost : Int) (h : (refill_bucket now cfg b).tokens < cost) :
    (is_allowed now cfg b cost).1 = false ∧
    (is_allowed now cfg b cost).2.1 = refill_bucket now cfg b := by
  unfold is_allowed
  rw [if_neg (not_le.mpr h)]
  exact ⟨rfl, rfl⟩

/-- Python truncation agrees with the floor on non-negative arguments. -/
theorem pyInt_of_nonneg {q : ℚ} (h : 0 ≤ q) : pyInt q = ⌊q⌋ := by
  unfold pyInt
  exact if_pos h

/-- Under a lower clamp at 1, Python truncation and floor agree everywhere
(for a negative argument both sides clamp to 1). -/
theorem max_one_pyInt (q : ℚ) : max 1 (pyInt q) = max 1 ⌊q⌋ := by
  unfold pyInt
  split
  · rfl
  · rename_i h
    have hq : q < 0 := not_le.mp h
    have hceil : ⌈q⌉ ≤ 0 := Int.ceil_le.mpr (by exact_mod_cast hq.le)
    have hfc : ⌊q⌋ ≤ ⌈q⌉ := Int.floor_le_ceil q
    omega

/-- The refill amount of `_refill_bucket`, in closed form: the new balance is
the old one plus `max 0 (int(elapsed * rpm / 60))` tokens, capped at the burst
limit (when nothing is added the cap is vacuous because the balance already
respects it). -/
theorem refill_tokens_eq (now : ℚ) (cfg : RateConfig) (b : Bucket)
    (hb1 : b.tokens ≤ cfg.burst_limit) :
    (refill_bucket now cfg b).tokens
      = min cfg.burst_limit
          (b.tokens + max 0 (pyInt ((now - b.last_refill) * cfg.requests_per_minute / 60))) := by
  unfold refill_bucket
  dsimp only
  generalize pyInt ((now - b.last_refill) * (cfg.requests_per_minute : ℚ) / 60) = a
  split
  · rename_i h
    dsimp only
    omega
  · rename_i h
    omega

/-- C8: starting from a balance in `[0, burst_limit]` and a non-negative cost,
one `is_allowed` call leaves the balance in `[0, burst_limit]`; the lazy refill
never removes tokens, and it adds exactly `max 0 (int(elapsed * rpm / 60))`
tokens capped at the burst limit — proportional to the elapsed time, never
negative. -/
theorem bucket_tokens_in_range (now : ℚ) (cfg : RateConfig) (b : Bucket) (cost : Int)
    (hb0 : 0 ≤ b.tokens) (hb1 : b.tokens ≤ cfg.burst_limit) (hcost : 0 ≤ cost) :
    (0 ≤ ((is_allowed now cfg b cost).2.1).tokens
      ∧ ((is_allowed now cfg b cost).2.1).tokens ≤ cfg.burst_limit)
    ∧ b.tokens ≤ (refill_bucket now cfg b).tokens
    ∧ (refill_bucket now cfg b).tokens
        = min cfg.burst_limit
            (b.tokens + max 0 (pyInt ((now - b.last_refill) * cfg.requests_per_minute / 60))) := by
  have heq := refill_tokens_eq now cfg b hb1
  have hrange : 0 ≤ (refill_bucket now cfg b).tokens
      ∧ (refill_bucket now cfg b).tokens ≤ cfg.burst_limit := by
    constructor <;> omega
  refine ⟨?_, by omega, heq⟩
  unfold is_allowed
  dsimp only
  split
  · rename_i h
    dsimp only
    omega
  · rename_i h
    dsimp only
    omega

/-- C7 (amended): with a non-decreasing clock, one `is_allowed` check refills
the bucket by `⌊elapsed * requestsPerMinute / 60⌋` tokens capped at the burst
limit (the bucket changing only when that amount is positive); it grants the
request exactly when the post-refill balance covers the cost, committing the
subtraction and reporting the remainder; otherwise it rejects, reports
`remaining = 0` and `retry_after = max 1 ⌊60 - (now - last_refill)⌋` — the
whole seconds left in the minute window anchored at the last refill, clamped
below by one. -/
theorem is_allowed_characterization (now : ℚ) (cfg : RateConfig) (b : Bucket)
    (cost : Int) (hnow : b.last_refill ≤ now) :
    ((refill_bucket now cfg b).tokens
        = if 1 ≤ ⌊(now - b.last_refill) * cfg.requests_per_minute / 60⌋
          then min cfg.burst_limit
                 (b.tokens + ⌊(now - b.last_refill) * cfg.requests_per_minute / 60⌋)
          else b.tokens)
    ∧ ((is_allowed now cfg b cost).1 = true ↔ cost ≤ (refill_bucket now cfg b).tokens)
    ∧ ((is_allowed now cfg b cost).2.2.retry_after
        = if cost ≤ (refill_bucket now cfg b).tokens then none
          else some (max 1 ⌊(60 : ℚ) - (now - (refill_bucket now cfg b).last_refill)⌋))
    ∧ ((is_allowed now cfg b cost).2.1.tokens
        = if cost ≤ (refill_bucket now cfg b).tokens
          then (refill_bucket now cfg b).tokens - cost
          else (refill_bucket now cfg b).tokens)
    ∧ ((is_allowed now cfg b cost).2.2.remaining
        = if cost ≤ (refill_bucket now cfg b).tokens
          then (refill_bucket now cfg b).tokens - cost
          else 0) := by
  have harg : (0 : ℚ) ≤ (now - b.last_refill) * cfg.requests_per_minute / 60 :=
    div_nonneg (mul_nonneg (sub_nonneg.mpr hnow) (Nat.cast_nonneg _)) (by norm_num)
  constructor
  · unfold refill_bucket
    dsimp only
    rw [pyInt_of_nonneg harg]
    by_cases h1 : (1 : Int) ≤ ⌊(now - b.last_refill) * (cfg.requests_per_minute : ℚ) / 60⌋
    · rw [if_pos (by omega), if_pos h1]
    · rw [if_neg (by omega), if_neg h1]
  · unfold is_allowed
    dsimp only
    by_cases hc : cost ≤ (refill_bucket now cfg b).tokens
    · rw [if_pos hc, if_pos hc, if_pos hc, if_pos hc]
      exact ⟨by simp [hc], rfl, rfl, rfl⟩
    · rw [if_neg hc, if_neg hc, if_neg hc, if_neg hc]
      refine ⟨by simp [hc], ?_, rfl, rfl⟩
      exact congrArg some (max_one_pyInt _)

/-- C7 (counterexample): for the `api_general` configuration
(60 requests per minute) and an empty bucket whose last refill is `now`,
the claim predicts `retry_after = ⌈60 / 60⌉ = 1` second (the time to
accumulate one token), but the code reports 60 seconds. -/
theorem retry_after_counterexample :
    (is_allowed 1000 RATE_LIMITS_api_general
        { tokens := 0, last_refill := 1000 } 1).2.2.retry_after = some 60
    ∧ some (60 : Int)
        ≠ some ⌈(60 : ℚ) / (RATE_LIMITS_api_general.requests_per_minute : ℚ)⌉ := by
  constructor
  · unfold is_allowed refill_bucket pyInt RATE_LIMITS_api_general
    norm_num
  · unfold RATE_LIMITS_api_general
    norm_num

/-- The `ValidateSession` query returns a row iff some session passes its
`WHERE` clause — given referential integrity of `UserSessions.UserId`
(enforced by the schema's foreign key), the `JOIN Users` never drops a row. -/
theorem validRows_ne_nil_iff (now : Int) (db : Database) (t : String)
    (hfk : ∀ s ∈ db.sessions, ∃ u ∈ db.users, u.id = s.userId) :
    (∃ r, r ∈ validRows now db t)
      ↔ ∃ s ∈ db.sessions, sessionMatches now t s = true := by
  unfold validRows
  constructor
  · rintro ⟨r, hr⟩
    obtain ⟨s, hs, hmem⟩ := List.mem_flatMap.mp hr
    exact ⟨s, List.mem_of_mem_filter hs, List.of_mem_filter hs⟩
  · rintro ⟨s, hs, hm⟩
    obtain ⟨u, hu, hid⟩ := hfk s hs
    refine ⟨(s, u), List.mem_flatMap.mpr ⟨s, List.mem_filter.mpr ⟨hs, hm⟩, ?_⟩⟩
    exact List.mem_map.mpr ⟨u, List.mem_filter.mpr ⟨hu, by simp [hid]⟩, rfl⟩

/-- C1: under referential integrity of `UserSessions.UserId`, `ValidateSession`
succeeds for token `t` exactly when some stored session carries token `t`, is
still active, and expires strictly after the current time; any other case
(no such token, revoked, or expired) yields `None`. -/
theorem validateSession_iff (now : Int) (db : Database) (t : String)
    (hfk : ∀ s ∈ db.sessions, ∃ u ∈ db.users, u.id = s.userId) :
    (ValidateSession now db t).1.isSome = true
      ↔ ∃ s ∈ db.sessions,
          s.sessionToken = t ∧ s.isActive = true ∧ now < s.expiresAt := by
  have hiff := validRows_ne_nil_iff now db t hfk
  have hmatch : ∀ s : Session, sessionMatches now t s = true
      ↔ (s.sessionToken = t ∧ s.isActive = true ∧ now < s.expiresAt) := by
    intro s
    unfold sessionMatches
    simp [Bool.and_eq_true, and_assoc]
  unfold ValidateSession
  cases hrows : (validRows now db t).head? with
  | none =>
    have hnil : validRows now db t = [] := by
      cases h : validRows now db t with
      | nil => rfl
      | cons a l => rw [h] at hrows; exact absurd hrows (by simp)
    simp only [hrows, Option.isSome_none]
    constructor
    · intro h; exact absurd h (by simp)
    · rintro ⟨s, hs, hprops⟩
      have : ∃ r, r ∈ validRows now db t :=
        hiff.mpr ⟨s, hs, (hmatch s).mpr hprops⟩
      rw [hnil] at this
      simp at this
    | some r =>
    have hmem : r ∈ validRows now db t := by
      cases h : validRows now db t with
      | nil => rw [h] at hrows; exact absurd hrows (by simp)
      | cons a l =>
        rw [h] at hrows
        simp at hrows
        rw [hrows]
        exact List.mem_cons_self r l
    simp only [hrows, Option.isSome_some, true_iff]
    obtain ⟨s, hs, hm⟩ := hiff.mp ⟨r, hmem⟩
    exact ⟨s, hs, (hmatch s).mp hm⟩

/-! ## Login lockout (C2, C3) -/

/-- A single active user row with `k` recorded failed attempts and an optional
lock expiry — the states the lockout machine moves through. -/
def mkUser (e p : String) (k : Nat) (lock : Option Int) : User :=
  { id := 1, email := e, username := none, passwordHash := p,
    isActive := true, loginAttempts := k, accountLockedUntil := lock }

/-- A one-user database in the given lockout state, the scenario of the
lockout claims. -/
def failedState (e p : String) (k : Nat) (lock : Option Int) : Database :=
  { users := [mkUser e p k lock], sessions := [] }

/-- A failed login against an unlocked account increments the counter; at the
`MAX_LOGIN_ATTEMPTS` threshold it also sets the lock expiry. -/
theorem auth_wrong_step_none (e p w : String) (t : Int) (k : Nat) (hw : w ≠ p) :
    AuthenticateUser t (failedState e p k none) e w
      = (.failure,
         if MAX_LOGIN_ATTEMPTS ≤ k + 1
         then failedState e p (k + 1) (some (t + LOCKOUT_DURATION))
         else failedState e p (k + 1) none) := by
  unfold AuthenticateUser GetUserByEmail failedState mkUser lockActive
    IncrementLoginAttempts bumpAttempts
  simp [List.find?, hw]
  split <;> simp

/-- While the lock expiry lies strictly in the future, any login attempt —
whatever the password — returns the account-locked error and changes nothing. -/
theorem auth_locked_step (e p p' : String) (t : Int) (k : Nat) (until0 : Int)
    (hlock : t < until0) :
    AuthenticateUser t (failedState e p k (some until0)) e p'
      = (.accountLocked, failedState e p k (some until0)) := by
  unfold AuthenticateUser GetUserByEmail failedState mkUser lockActive
  simp [List.find?, hlock]

/-- Once the lock expiry has passed, a correct password succeeds and resets
the counter and the lock. -/
theorem auth_correct_step_expired (e p : String) (t : Int) (k : Nat) (until0 : Int)
    (hexp : until0 ≤ t) :
    AuthenticateUser t (failedState e p k (some until0)) e p
      = (.success (mkUser e p k (some until0)), failedState e p 0 none) := by
  have hnl : ¬ t < until0 := not_lt.mpr hexp
  unfold AuthenticateUser GetUserByEmail failedState lockActive ResetLoginAttempts
    clearAttempts
  simp [List.find?, hnl, mkUser]

/-- Once the lock expiry has passed, a wrong password increments the stale
counter; when the result is still at or above the threshold, the account is
immediately locked again. -/
theorem auth_wrong_step_expired (e p w : String) (t : Int) (k : Nat) (until0 : Int)
    (hexp : until0 ≤ t) (hw : w ≠ p) :
    AuthenticateUser t (failedState e p k (some until0)) e w
      = (.failure,
         if MAX_LOGIN_ATTEMPTS ≤ k + 1
         then failedState e p (k + 1) (some (t + LOCKOUT_DURATION))
         else failedState e p (k + 1) (some until0)) := by
  have hnl : ¬ t < until0 := not_lt.mpr hexp
  unfold AuthenticateUser GetUserByEmail failedState mkUser lockActive
    IncrementLoginAttempts bumpAttempts
  simp [List.find?, hnl, hw]
  split <;> simp

/-- C2: from a fresh account (zero failed attempts, no lock), five consecutive
wrong-password logins leave the account locked until `t5 + LOCKOUT_DURATION`,
and a sixth attempt with the correct password made before that expiry returns
the account-locked error, not success. -/
theorem five_failures_lock_account (e p w : String) (t1 t2 t3 t4 t5 t6 : Int)
    (hw : w ≠ p) (h6 : t6 < t5 + LOCKOUT_DURATION) :
    (AuthenticateUser t5
        (AuthenticateUser t4
          (AuthenticateUser t3
            (AuthenticateUser t2
              (AuthenticateUser t1 (failedState e p 0 none) e w).2 e w).2 e w).2 e w).2
        e w)
      = (.failure, failedState e p 5 (some (t5 + LOCKOUT_DURATION)))
    ∧ (AuthenticateUser t6 (failedState e p 5 (some (t5 + LOCKOUT_DURATION))) e p).1
        = .accountLocked := by
  have s1 := auth_wrong_step_none e p w t1 0 hw
  have s2 := auth_wrong_step_none e p w t2 1 hw
  have s3 := auth_wrong_step_none e p w t3 2 hw
  have s4 := auth_wrong_step_none e p w t4 3 hw
  have s5 := auth_wrong_step_none e p w t5 4 hw
  rw [if_neg (by decide)] at s1 s2 s3 s4
  rw [if_pos (by decide)] at s5
  refine ⟨?_, ?_⟩
  · rw [s1, s2, s3, s4, s5]
  · rw [auth_locked_step e p p t6 5 (t5 + LOCKOUT_DURATION) h6]

/-- C3 (counterexample): take the account locked until time 100 with the
counter at the threshold, and a login attempt exactly at the lock expiry
(time 100, wrong password). The claim predicts a fresh window — the counter
restarting and no immediate re-lock — but the code increments the stale
counter to 6 and locks the account again until time 3700. -/
theorem expired_lock_relock_counterexample :
    (AuthenticateUser 100 (failedState "a@b" "pw" 5 (some 100)) "a@b" "x").1
        = .failure
    ∧ ((AuthenticateUser 100 (failedState "a@b" "pw" 5 (some 100)) "a@b" "x").2.users.map
        User.loginAttempts) = [6]
    ∧ ((AuthenticateUser 100 (failedState "a@b" "pw" 5 (some 100)) "a@b" "x").2.users.map
        User.accountLockedUntil) = [some 3700] := by
  decide

/-- C3 (amended): a login attempt at or after the lock expiry is no longer
rejected as locked. A correct password succeeds and resets the counter and the
lock; but a wrong password increments the counter left over from the previous
window, so when that counter is already at the threshold a single failed
attempt immediately re-locks the account for another `LOCKOUT_DURATION`. -/
theorem expired_lock_behavior (e p w : String) (until0 now : Int) (k : Nat)
    (hexp : until0 ≤ now) (hw : w ≠ p) (hk : MAX_LOGIN_ATTEMPTS ≤ k + 1) :
    AuthenticateUser now (failedState e p k (some until0)) e p
      = (.success (mkUser e p k (some until0)), failedState e p 0 none)
    ∧ AuthenticateUser now (failedState e p k (some until0)) e w
      = (.failure, failedState e p (k + 1) (some (now + LOCKOUT_DURATION))) := by
  refine ⟨auth_correct_step_expired e p now k until0 hexp, ?_⟩
  rw [auth_wrong_step_expired e p w now k until0 hexp hw, if_pos hk]

/-- C4: through the registration pipeline (the API's `ValidateEmail`
normalization followed by `CreateUser`), a successful registration with email
`e1` makes any second registration whose email normalizes the same — any
casing, any leading/trailing whitespace — fail with the `email_exists`
conflict; no second user is created. -/
theorem register_same_email_conflicts (db : Database) (e1 e2 : String)
    (un1 un2 : Option String) (p1 p2 : String) (u : User) (db1 : Database)
    (hsucc : RegisterUser db e1 un1 p1 = (.ok u, db1))
    (heq : normalizeEmail e2 = normalizeEmail e1) :
    RegisterUser db1 e2 un2 p2 = (.emailExists, db1) := by
  unfold RegisterUser CreateUser at hsucc
  dsimp only at hsucc
  split at hsucc
  · exact absurd (congrArg Prod.fst hsucc) (by simp)
  · split at hsucc
    · exact absurd (congrArg Prod.fst hsucc) (by simp)
    · rw [Prod.mk.injEq] at hsucc
      obtain ⟨hres, hdb⟩ := hsucc
      unfold RegisterUser CreateUser
      rw [heq]
      dsimp only
      have hany : db1.users.any (fun u0 => u0.email == normalizeEmail e1) = true := by
        rw [← hdb]
        simp
      rw [if_pos hany]

/-- C9 (counterexample): the store already holds a session with token `"t"`;
a `CreateUserSession` whose freshly generated session token is again `"t"`
does not regenerate and succeed as the claim states — it returns `None`
(failure) and leaves the store unchanged. -/
theorem createSession_collision_counterexample :
    CreateUserSession 0
        { users := [],
          sessions := [{ userId := 1, sessionToken := "t", refreshToken := "r",
                         expiresAt := 10, isActive := true, lastAccessAt := 0 }] }
        2 "t" "r2"
      = (none,
         { users := [],
           sessions := [{ userId := 1, sessionToken := "t", refreshToken := "r",
                          expiresAt := 10, isActive := true, lastAccessAt := 0 }] }) := by
  decide

/-- C9 (amended): when the freshly generated session or refresh token collides
with one already stored, the `INSERT` violates a `UNIQUE` constraint and the
blanket exception handler makes `CreateUserSession` return `None` with the
store unchanged; no new token is generated and no session is created. -/
theorem createSession_collision_fails (now : Int) (db : Database) (uid : Nat)
    (st rt : String)
    (h : db.sessions.any (fun s => s.sessionToken == st || s.refreshToken == rt)
          = true) :
    CreateUserSession now db uid st rt = (none, db) := by
  unfold CreateUserSession
  rw [if_pos h]

/-! ## Concrete evaluation fixtures -/

/-- A concrete active user. -/
def wUser : User :=
  { id := 1, email := "u@x", username := none, passwordHash := "pw",
    isActive := true, loginAttempts := 0, accountLockedUntil := none }

/-- A concrete live session belonging to `wUser`. -/
def wSession : Session :=
  { userId := 1, sessionToken := "t", refreshToken := "r",
    expiresAt := 10, isActive := true, lastAccessAt := 0 }

/-- A concrete database: one user, one live session. -/
def wDb : Database := { users := [wUser], sessions := [wSession] }

/-- A concrete empty bucket whose last refill is time 1000. -/
def wBucket : Bucket := { tokens := 0, last_refill := 1000 }

/-- At the instant of its last refill the concrete bucket is left unchanged by
the lazy refill. -/
theorem refill_wBucket :
    refill_bucket 1000 RATE_LIMITS_api_general wBucket = wBucket := by
  unfold refill_bucket wBucket RATE_LIMITS_api_general pyInt
  norm_num

theorem validateSession_iff_witness :
    (∀ s ∈ wDb.sessions, ∃ u ∈ wDb.users, u.id = s.userId)
    ∧ ((ValidateSession 5 wDb "t").1.isSome = true
        ↔ ∃ s ∈ wDb.sessions,
            s.sessionToken = "t" ∧ s.isActive = true ∧ 5 < s.expiresAt) :=
  ⟨by decide, validateSession_iff 5 wDb "t" (by decide)⟩

theorem five_failures_lock_account_witness :
    (("x" : String) ≠ "pw" ∧ (1 : Int) < 0 + LOCKOUT_DURATION)
    ∧ ((AuthenticateUser 0
          (AuthenticateUser 0
            (AuthenticateUser 0
              (AuthenticateUser 0
                (AuthenticateUser 0 (failedState "e" "pw" 0 none) "e" "x").2
                "e" "x").2 "e" "x").2 "e" "x").2 "e" "x")
        = (.failure, failedState "e" "pw" 5 (some (0 + LOCKOUT_DURATION)))
      ∧ (AuthenticateUser 1 (failedState "e" "pw" 5 (some (0 + LOCKOUT_DURATION))) "e" "pw").1
          = .accountLocked) :=
  ⟨⟨by decide, by decide⟩,
   five_failures_lock_account "e" "pw" "x" 0 0 0 0 0 1 (by decide) (by decide)⟩

theorem expired_lock_behavior_witness :
    ((100 : Int) ≤ 100 ∧ ("x" : String) ≠ "pw" ∧ MAX_LOGIN_ATTEMPTS ≤ 5 + 1)
    ∧ (AuthenticateUser 100 (failedState "e" "pw" 5 (some 100)) "e" "pw"
        = (.success (mkUser "e" "pw" 5 (some 100)), failedState "e" "pw" 0 none))
    ∧ (AuthenticateUser 100 (failedState "e" "pw" 5 (some 100)) "e" "x"
        = (.failure, failedState "e" "pw" (5 + 1) (some (100 + LOCKOUT_DURATION)))) :=
  ⟨⟨by decide, by decide, by decide⟩,
   (expired_lock_behavior "e" "pw" "x" 100 100 5 (by decide) (by decide) (by decide)).1,
   (expired_lock_behavior "e" "pw" "x" 100 100 5 (by decide) (by decide) (by decide)).2⟩

/-- The user created by registering `" A@B.c "` in an empty store. -/
def wU1 : User :=
  { id := 1, email := "a@b.c", username := some "a", passwordHash := "p",
    isActive := true, loginAttempts := 0, accountLockedUntil := none }

/-- The store after that first successful registration. -/
def wDb1 : Database := { users := [wU1], sessions := [] }

theorem register_same_email_conflicts_witness :
    (RegisterUser { users := [], sessions := [] } " A@B.c " none "p" = (.ok wU1, wDb1)
      ∧ normalizeEmail "a@b.C" = normalizeEmail " A@B.c ")
    ∧ RegisterUser wDb1 "a@b.C" none "q" = (.emailExists, wDb1) :=
  ⟨⟨by decide, by decide⟩,
   register_same_email_conflicts { users := [], sessions := [] } " A@B.c " "a@b.C"
     none none "p" "q" wU1 wDb1 (by decide) (by decide)⟩

theorem is_allowed_characterization_witness :
    wBucket.last_refill ≤ 1000
    ∧ (((refill_bucket 1000 RATE_LIMITS_api_general wBucket).tokens
          = if 1 ≤ ⌊(1000 - wBucket.last_refill) * RATE_LIMITS_api_general.requests_per_minute / 60⌋
            then min RATE_LIMITS_api_general.burst_limit
                   (wBucket.tokens
                     + ⌊(1000 - wBucket.last_refill) * RATE_LIMITS_api_general.requests_per_minute / 60⌋)
            else wBucket.tokens)
      ∧ ((is_allowed 1000 RATE_LIMITS_api_general wBucket 1).1 = true
          ↔ 1 ≤ (refill_bucket 1000 RATE_LIMITS_api_general wBucket).tokens)
      ∧ ((is_allowed 1000 RATE_LIMITS_api_general wBucket 1).2.2.retry_after
          = if 1 ≤ (refill_bucket 1000 RATE_LIMITS_api_general wBucket).tokens then none
            else some (max 1
              ⌊(60 : ℚ) - (1000 - (refill_bucket 1000 RATE_LIMITS_api_general wBucket).last_refill)⌋))
      ∧ ((is_allowed 1000 RATE_LIMITS_api_general wBucket 1).2.1.tokens
          = if 1 ≤ (refill_bucket 1000 RATE_LIMITS_api_general wBucket).tokens
            then (refill_bucket 1000 RATE_LIMITS_api_general wBucket).tokens - 1
            else (refill_bucket 1000 RATE_LIMITS_api_general wBucket).tokens)
      ∧ ((is_allowed 1000 RATE_LIMITS_api_general wBucket 1).2.2.remaining
          = if 1 ≤ (refill_bucket 1000 RATE_LIMITS_api_general wBucket).tokens
            then (refill_bucket 1000 RATE_LIMITS_api_general wBucket).tokens - 1
            else 0)) :=
  ⟨by unfold wBucket; norm_num,
   is_allowed_characterization 1000 RATE_LIMITS_api_general wBucket 1
     (by unfold wBucket; norm_num)⟩

theorem bucket_tokens_in_range_witness :
    (0 ≤ wBucket.tokens ∧ wBucket.tokens ≤ RATE_LIMITS_api_general.burst_limit
      ∧ (0 : Int) ≤ 1)
    ∧ ((0 ≤ ((is_allowed 1000 RATE_LIMITS_api_general wBucket 1).2.1).tokens
          ∧ ((is_allowed 1000 RATE_LIMITS_api_general wBucket 1).2.1).tokens
              ≤ RATE_LIMITS_api_general.burst_limit)
      ∧ wBucket.tokens ≤ (refill_bucket 1000 RATE_LIMITS_api_general wBucket).tokens
      ∧ (refill_bucket 1000 RATE_LIMITS_api_general wBucket).tokens
          = min RATE_LIMITS_api_general.burst_limit
              (wBucket.tokens
                + max 0 (pyInt ((1000 - wBucket.last_refill)
                    * RATE_LIMITS_api_general.requests_per_minute / 60)))) :=
  ⟨⟨by decide, by decide, by decide⟩,
   bucket_tokens_in_range 1000 RATE_LIMITS_api_general wBucket 1
     (by decide) (by decide) (by decide)⟩

theorem createSession_collision_fails_witness :
    (wDb.sessions.any
        (fun s => s.sessionToken == "t" || s.refreshToken == "r2") = true)
    ∧ CreateUserSession 0 wDb 2 "t" "r2" = (none, wDb) :=
  ⟨by decide, createSession_collision_fails 0 wDb 2 "t" "r2" (by decide)⟩

theorem rejected_request_leaves_bucket_witness :
    (refill_bucket 1000 RATE_LIMITS_api_general wBucket).tokens < 1
    ∧ ((is_allowed 1000 RATE_LIMITS_api_general wBucket 1).1 = false
      ∧ (is_allowed 1000 RATE_LIMITS_api_general wBucket 1).2.1
          = refill_bucket 1000 RATE_LIMITS_api_general wBucket) :=
  ⟨by rw [refill_wBucket]; decide,
   rejected_request_leaves_bucket 1000 RATE_LIMITS_api_general wBucket 1
     (by rw [refill_wBucket]; decide)⟩

end AndyWeb
